import Mathlib

/-!
# Wake/sleep scheduler of the ESP32-CAM uploader (`gas-esp/src/main.cpp`)

A shallow embedding of `main.cpp`.  Every wake of the device is one run of
`setup()`; the only data that survives a deep sleep is the pair of
`RTC_DATA_ATTR` counters.  The peripherals (camera, DHT sensor, Wi-Fi radio,
HTTP client) are external: what they return during one wake is collected in
`WakeInput`, and what the program does to them is recorded as a list of
`Event`s in program order.  `Serial` diagnostics are not recorded.

`int` is the 32-bit two's-complement integer of the target; arithmetic on the
persisted counters wraps (`wrapInt32`).  `float` values are kept as their exact
value (`F32`), which is all that `isnan` and the comparisons of the program
look at.
-/

namespace GasEsp

/-! ## Machine integers -/

/-- Two's-complement reduction of an integer to the range of a 32-bit `int`. -/
def wrapInt32 (x : Int) : Int := (x + 2147483648) % 4294967296 - 2147483648

/-- Reduction of a natural number to the range of `uint64_t`. -/
def wrapUInt64 (x : Nat) : Nat := x % 18446744073709551616

/-- Conversion of an `int` argument to a `uint64_t` parameter. -/
def toUInt64 (x : Int) : Nat := (x % 18446744073709551616).toNat

/-! ## Configuration (lines 32-46) -/

def uS_TO_S_FACTOR : Nat := 1000000
def PHOTO_INTERVAL_S : Int := 3600
def KEEP_ALIVE_INTERVAL_S : Int := 90

/-- The expression `(P + K - 1) / K` of line 38 over `int`: C division
truncates toward zero. -/
def wakeupsNeededFor (P K : Int) : Int :=
  wrapInt32 (Int.tdiv (wrapInt32 (wrapInt32 (P + K) - 1)) K)

/-- Line 38. -/
def wakeupsNeededForPhoto : Int := wakeupsNeededFor PHOTO_INTERVAL_S KEEP_ALIVE_INTERVAL_S

def LEDC_CHANNEL_FLASH : Nat := 5
def LED_GPIO_NUM : Int := 4

/-! ## Floats -/

/-- A value of type `float`: not-a-number, an infinity, or a finite value kept
exactly. -/
inductive F32 where
  | nan
  | negInf
  | posInf
  | fin (q : ℚ)
  deriving DecidableEq

namespace F32

/-- The C `isnan`. -/
def isnan : F32 → Bool
  | nan => true
  | _ => false

/-- The comparison `x > c` of a float with a finite constant; false on NaN. -/
def gtConst : F32 → ℚ → Bool
  | nan, _ => false
  | negInf, _ => false
  | posInf, _ => true
  | fin q, c => decide (c < q)

end F32

/-- The literal `-99.9` stored in a `float`: the nearest single-precision
value, `-13094093 / 2^17`. -/
def dhtErrorValue : F32 := F32.fin (-13094093 / 131072)

/-! ## External collaborators -/

inductive esp_sleep_wakeup_cause_t where
  | ESP_SLEEP_WAKEUP_UNDEFINED
  | ESP_SLEEP_WAKEUP_ALL
  | ESP_SLEEP_WAKEUP_EXT0
  | ESP_SLEEP_WAKEUP_EXT1
  | ESP_SLEEP_WAKEUP_TIMER
  | ESP_SLEEP_WAKEUP_TOUCHPAD
  | ESP_SLEEP_WAKEUP_ULP
  | ESP_SLEEP_WAKEUP_GPIO
  | ESP_SLEEP_WAKEUP_UART
  deriving DecidableEq

inductive wl_status_t where
  | WL_NO_SHIELD
  | WL_IDLE_STATUS
  | WL_NO_SSID_AVAIL
  | WL_SCAN_COMPLETED
  | WL_CONNECTED
  | WL_CONNECT_FAILED
  | WL_CONNECTION_LOST
  | WL_DISCONNECTED
  deriving DecidableEq

inductive framesize_t where
  | FRAMESIZE_VGA
  | FRAMESIZE_SVGA
  deriving DecidableEq

inductive camera_grab_mode_t where
  | CAMERA_GRAB_WHEN_EMPTY
  | CAMERA_GRAB_LATEST
  deriving DecidableEq

inductive camera_fb_location_t where
  | CAMERA_FB_IN_PSRAM
  | CAMERA_FB_IN_DRAM
  deriving DecidableEq

/-- The fields of `camera_config_t` that `setup()` chooses by memory class
(lines 299-318); the pin assignment is fixed. -/
structure camera_config_t where
  frame_size : framesize_t
  grab_mode : camera_grab_mode_t
  fb_location : camera_fb_location_t
  jpeg_quality : Nat
  fb_count : Nat
  deriving DecidableEq

/-- A captured frame (`camera_fb_t`): the JPEG bytes. -/
structure camera_fb_t where
  buf : List Nat
  deriving DecidableEq

/-- The result of `String(value, decimalPlaces)`: the value together with the
number of decimal places it is printed with. -/
structure FloatString where
  value : F32
  decimalPlaces : Nat
  deriving DecidableEq

inductive HeaderValue where
  | text (s : String)
  | float (f : FloatString)
  deriving DecidableEq

/-- One `http.addHeader(name, value)`. -/
structure Header where
  name : String
  value : HeaderValue
  deriving DecidableEq

/-- What the program does to the outside world, in program order. -/
inductive Event where
  | delay (ms : Nat)
  | rtcGpioHoldDis (pin : Int)
  | ledcSetup (channel freq resolution : Nat)
  | ledcAttachPin (pin : Int) (channel : Nat)
  | ledcWrite (channel duty : Nat)
  | dhtBegin
  | dhtReadTemperature
  | dhtReadHumidity
  | cameraInit (config : camera_config_t)
  | sensorSetVflip
  | sensorSetHmirror
  | cameraFbGet
  | cameraFbReturn
  | cameraDeinit
  | wifiModeSta
  | wifiBegin
  | wifiStatus (result : wl_status_t)
  | wifiDisconnect
  | wifiModeOff
  | btStop
  | httpBegin
  | httpAddHeader (h : Header)
  | httpPost (body : List Nat)
  | httpGetString
  | httpErrorToString (code : Int)
  | httpEnd
  | timerWakeup (us : Nat)
  | serialFlush
  | deepSleepStart
  deriving DecidableEq

/-- Everything the environment answers during one wake. -/
structure WakeInput where
  /-- Result of `esp_sleep_get_wakeup_cause()`. -/
  wakeup_reason : esp_sleep_wakeup_cause_t
  /-- Result of `psramFound()`. -/
  psram : Bool
  /-- Whether `esp_camera_init` returns `ESP_OK`. -/
  cameraInitOk : Bool
  /-- Whether `esp_camera_sensor_get()` returns a handle. -/
  sensorHandle : Bool
  /-- Result of the `i`-th call of `WiFi.status()` in this wake. -/
  wifiStatus : Nat → wl_status_t
  /-- Result of `esp_camera_fb_get()`; `none` is the null pointer. -/
  fb : Option camera_fb_t
  /-- Result of `dht.readTemperature()`. -/
  rawTemperature : F32
  /-- Result of `dht.readHumidity()`. -/
  rawHumidity : F32
  /-- Result of `http.POST`. -/
  httpResponseCode : Int

/-- The `RTC_DATA_ATTR` variables (lines 49-50): all that survives deep sleep. -/
structure RtcState where
  bootCount : Int
  wakeupsSinceLastPhoto : Int
  deriving DecidableEq

/-- Initial values of the persisted variables after power-on or flash. -/
def coldStart : RtcState := { bootCount := 0, wakeupsSinceLastPhoto := 0 }

/-! ## LED control (lines 56-76) -/

def setupLedFlash (pin : Int) : List Event :=
  if pin ≥ 0 then
    [Event.rtcGpioHoldDis pin,
     Event.ledcSetup LEDC_CHANNEL_FLASH 5000 8,
     Event.ledcAttachPin pin LEDC_CHANNEL_FLASH,
     Event.ledcWrite LEDC_CHANNEL_FLASH 0]
  else
    []

/-- The body under `#if defined(LED_GPIO_NUM) && LED_GPIO_NUM >= 0`, which
holds for `LED_GPIO_NUM = 4`. -/
def toggle_led (en : Bool) : List Event :=
  let duty := if en then 200 else 0
  [Event.ledcWrite LEDC_CHANNEL_FLASH duty]

/-! ## Sensor (lines 79-95) -/

/-- Outcome of `readDHT`: the two reference parameters after the call. -/
structure DhtReading where
  temperature : F32
  humidity : F32
  deriving DecidableEq

def readDHT (rawTemperature rawHumidity : F32) : DhtReading × List Event :=
  let temperature := rawTemperature
  let humidity := rawHumidity
  let events := [Event.dhtReadTemperature, Event.dhtReadHumidity]
  if temperature.isnan || humidity.isnan then
    ({ temperature := dhtErrorValue, humidity := dhtErrorValue }, events)
  else
    ({ temperature := temperature, humidity := humidity }, events)

/-! ## Upload (lines 98-143) -/

/-- Result of a routine that calls `WiFi.status()`: its return value, the
number of `WiFi.status()` calls made so far in this wake, and its events. -/
structure SendResult where
  success : Bool
  calls : Nat
  events : List Event

/-- The headers added in lines 116-119. -/
def uploadHeaders (temperature humidity : F32) : List Header :=
  [{ name := "Content-Type", value := HeaderValue.text "image/jpeg" }]
  ++ (if temperature.gtConst (-99) then
        [{ name := "X-Temperature", value := HeaderValue.float ⟨temperature, 1⟩ }]
      else [])
  ++ (if humidity.gtConst (-99) then
        [{ name := "X-Humidity", value := HeaderValue.float ⟨humidity, 1⟩ }]
      else [])

def sendImageToServer (fb : Option camera_fb_t) (temperature humidity : F32)
    (wifiStatus : Nat → wl_status_t) (calls : Nat) (httpResponseCode : Int) : SendResult :=
  match fb with
  | none => { success := false, calls := calls, events := [] }
  | some frame =>
    let st := wifiStatus calls
    if st ≠ wl_status_t.WL_CONNECTED then
      { success := false, calls := calls + 1, events := [Event.wifiStatus st] }
    else
      let headers := (uploadHeaders temperature humidity).map Event.httpAddHeader
      let post := [Event.httpPost frame.buf]
      if httpResponseCode > 0 then
        { success := decide (httpResponseCode = 200),
          calls := calls + 1,
          events := [Event.wifiStatus st, Event.httpBegin] ++ headers ++ post
                    ++ [Event.httpGetString, Event.httpEnd] }
      else
        { success := false,
          calls := calls + 1,
          events := [Event.wifiStatus st, Event.httpBegin] ++ headers ++ post
                    ++ [Event.httpErrorToString httpResponseCode, Event.httpEnd] }

/-! ## Capture (lines 146-180) -/

def captureAndSendImage (inp : WakeInput) (calls : Nat) : SendResult :=
  let before := toggle_led true ++ [Event.delay 1000, Event.cameraFbGet] ++ toggle_led false
  match inp.fb with
  | some frame =>
    let dht := readDHT inp.rawTemperature inp.rawHumidity
    let sent := sendImageToServer (some frame) dht.1.temperature dht.1.humidity
                  inp.wifiStatus calls inp.httpResponseCode
    { success := sent.success,
      calls := sent.calls,
      events := before ++ dht.2 ++ sent.events ++ [Event.cameraFbReturn] }
  | none =>
    { success := false, calls := calls, events := before }

/-! ## Deep sleep (lines 183-209) -/

/-- The events of `goToDeepSleep`; `esp_deep_sleep_start()` does not return, so
this is always the end of a wake. -/
def goToDeepSleep (sleepDuration_s : Nat) : List Event :=
  [Event.wifiDisconnect, Event.wifiModeOff, Event.btStop,
   Event.timerWakeup (wrapUInt64 (sleepDuration_s * uS_TO_S_FACTOR)),
   Event.serialFlush, Event.delay 100, Event.deepSleepStart]

/-! ## Keep-alive action (lines 212-230) -/

def performKeepAliveAction : List Event :=
  [Event.ledcWrite LEDC_CHANNEL_FLASH 255, Event.delay 500,
   Event.ledcWrite LEDC_CHANNEL_FLASH 0, Event.delay 100]

/-! ## Wake-up reason (lines 233-257) -/

def printWakeupReason (wakeup_reason : esp_sleep_wakeup_cause_t) (rtc : RtcState) : RtcState :=
  let rtc1 : RtcState := { rtc with bootCount := wrapInt32 (rtc.bootCount + 1) }
  match wakeup_reason with
  | esp_sleep_wakeup_cause_t.ESP_SLEEP_WAKEUP_TIMER => rtc1
  | _ =>
    if rtc1.bootCount = 1 then
      { rtc1 with wakeupsSinceLastPhoto := 0 }
    else
      rtc1

/-! ## `setup()` (lines 260-428) -/

/-- Lines 270-273: the counter advance after `printWakeupReason()`. -/
def advanceCounter (rtc : RtcState) : RtcState :=
  if rtc.bootCount > 1 then
    { rtc with wakeupsSinceLastPhoto := wrapInt32 (rtc.wakeupsSinceLastPhoto + 1) }
  else
    rtc

/-- Lines 299-318: the camera configuration by memory class. -/
def cameraConfig (psram : Bool) : camera_config_t :=
  if psram then
    { frame_size := framesize_t.FRAMESIZE_SVGA,
      grab_mode := camera_grab_mode_t.CAMERA_GRAB_LATEST,
      fb_location := camera_fb_location_t.CAMERA_FB_IN_PSRAM,
      jpeg_quality := 10,
      fb_count := 2 }
  else
    { frame_size := framesize_t.FRAMESIZE_VGA,
      grab_mode := camera_grab_mode_t.CAMERA_GRAB_WHEN_EMPTY,
      fb_location := camera_fb_location_t.CAMERA_FB_IN_DRAM,
      jpeg_quality := 12,
      fb_count := 1 }

/-- Lines 321-328: the local `timeForPhoto`, from the counters as they stand
after the advance. -/
def timeForPhoto (rtc : RtcState) : Bool :=
  let t := decide (rtc.wakeupsSinceLastPhoto ≥ wakeupsNeededForPhoto)
  if rtc.bootCount = 1 then true else t

def max_wifi_retries : Nat := 20

/-- State of the Wi-Fi wait when the `while` of lines 379-383 is left. -/
structure WifiLoopResult where
  /-- Number of `WiFi.status()` calls made so far in this wake. -/
  calls : Nat
  wifi_retries : Nat
  events : List Event

/-- Lines 379-383, entered with `calls` earlier `WiFi.status()` calls and the
given `wifi_retries`.  The condition calls `WiFi.status()` first and looks at
`wifi_retries` only when the radio is not connected. -/
def wifiConnectLoop (wifiStatus : Nat → wl_status_t) (calls wifi_retries : Nat) :
    WifiLoopResult :=
  let st := wifiStatus calls
  if st ≠ wl_status_t.WL_CONNECTED ∧ wifi_retries < max_wifi_retries then
    let rest := wifiConnectLoop wifiStatus (calls + 1) (wifi_retries + 1)
    { rest with events := Event.wifiStatus st :: Event.delay 500 :: rest.events }
  else
    { calls := calls + 1, wifi_retries := wifi_retries, events := [Event.wifiStatus st] }
termination_by max_wifi_retries - wifi_retries
decreasing_by omega

/-- What one run of `setup()` leaves behind: the persisted counters at the
moment of deep sleep, the local `timeForPhoto`, the local `photoSent` (false
where it is never assigned), and the events. -/
structure SetupResult where
  rtc : RtcState
  timeForPhoto : Bool
  photoSent : Bool
  trace : List Event

/-- Lines 331-413: the photo routine. -/
def photoRoutine (inp : WakeInput) (rtc : RtcState) (config : camera_config_t) : SetupResult :=
  let start := setupLedFlash LED_GPIO_NUM
               ++ [Event.dhtBegin, Event.delay 100, Event.cameraInit config]
  if !inp.cameraInitOk then
    { rtc := rtc, timeForPhoto := true, photoSent := false,
      trace := start ++ goToDeepSleep (toUInt64 KEEP_ALIVE_INTERVAL_S) }
  else
    let flips := if inp.sensorHandle then [Event.sensorSetVflip, Event.sensorSetHmirror] else []
    let wifiOn := [Event.wifiModeSta, Event.wifiBegin]
    let waited := wifiConnectLoop inp.wifiStatus 0 0
    let st := inp.wifiStatus waited.calls
    let sent : SendResult :=
      if st = wl_status_t.WL_CONNECTED then
        captureAndSendImage inp (waited.calls + 1)
      else
        { success := false, calls := waited.calls + 1, events := [] }
    { rtc := { rtc with wakeupsSinceLastPhoto := 0 },
      timeForPhoto := true,
      photoSent := sent.success,
      trace := start ++ flips ++ wifiOn ++ waited.events ++ [Event.wifiStatus st]
               ++ sent.events ++ [Event.cameraDeinit]
               ++ goToDeepSleep (toUInt64 KEEP_ALIVE_INTERVAL_S) }

/-- Lines 414-427: the keep-alive routine. -/
def keepAliveRoutine (rtc : RtcState) : SetupResult :=
  { rtc := rtc, timeForPhoto := false, photoSent := false,
    trace := setupLedFlash LED_GPIO_NUM ++ performKeepAliveAction
             ++ goToDeepSleep (toUInt64 KEEP_ALIVE_INTERVAL_S) }

def setup (inp : WakeInput) (rtc : RtcState) : SetupResult :=
  let rtc1 := printWakeupReason inp.wakeup_reason rtc
  let rtc2 := advanceCounter rtc1
  let config := cameraConfig inp.psram
  let r := if timeForPhoto rtc2 then photoRoutine inp rtc2 config else keepAliveRoutine rtc2
  { r with trace := Event.delay 500 :: r.trace }

/-! ## Successive wakes -/

/-- The persisted counters after the first `n` wakes from a cold start, wake
`i + 1` receiving `inputs i`. -/
def rtcAfter (inputs : Nat → WakeInput) : Nat → RtcState
  | 0 => coldStart
  | n + 1 => (setup (inputs n) (rtcAfter inputs n)).rtc

/-- Whether wake number `k + 1` from a cold start takes the photo branch. -/
def wakeIsPhoto (inputs : Nat → WakeInput) (k : Nat) : Bool :=
  (setup (inputs k) (rtcAfter inputs k)).timeForPhoto

/-! ## Concrete inputs -/

def sampleFrame : camera_fb_t := { buf := [255, 216, 255, 217] }

/-- A wake after power-on in which every peripheral works. -/
def powerOnWake : WakeInput :=
  { wakeup_reason := esp_sleep_wakeup_cause_t.ESP_SLEEP_WAKEUP_UNDEFINED,
    psram := true,
    cameraInitOk := true,
    sensorHandle := true,
    wifiStatus := fun _ => wl_status_t.WL_CONNECTED,
    fb := some sampleFrame,
    rawTemperature := F32.fin 23.5,
    rawHumidity := F32.fin 50,
    httpResponseCode := 200 }

/-- A timer wake in which every peripheral works. -/
def timerWake : WakeInput :=
  { powerOnWake with wakeup_reason := esp_sleep_wakeup_cause_t.ESP_SLEEP_WAKEUP_TIMER }

/-- A wake after power-on in which `esp_camera_init` fails. -/
def powerOnWakeCameraFails : WakeInput := { powerOnWake with cameraInitOk := false }

/-- A timer wake in which `esp_camera_init` fails. -/
def timerWakeCameraFails : WakeInput := { timerWake with cameraInitOk := false }

/-- A timer wake in which the radio connects and `esp_camera_fb_get` returns
the null pointer. -/
def timerWakeCaptureFails : WakeInput := { timerWake with fb := none }

/-- A timer wake in which the radio never connects. -/
def timerWakeNoWifi : WakeInput :=
  { timerWake with wifiStatus := fun _ => wl_status_t.WL_DISCONNECTED }

/-! ## Observations on an event list -/

/-- The header of an `http.addHeader` event. -/
def Event.header? : Event → Option Header
  | Event.httpAddHeader h => some h
  | _ => none

/-- The duration of a timer-arming event, in microseconds. -/
def Event.armed? : Event → Option Nat
  | Event.timerWakeup us => some us
  | _ => none

/-- The duration of a `delay` event, in milliseconds. -/
def Event.delay? : Event → Option Nat
  | Event.delay ms => some ms
  | _ => none

/-- The event itself when it arms the wake-up timer or starts deep sleep. -/
def Event.suspend? : Event → Option Event
  | Event.timerWakeup us => some (Event.timerWakeup us)
  | Event.deepSleepStart => some Event.deepSleepStart
  | _ => none

/-- The event itself when it is one of the two sensor reads of `readDHT`. -/
def Event.dhtRead? : Event → Option Event
  | Event.dhtReadTemperature => some Event.dhtReadTemperature
  | Event.dhtReadHumidity => some Event.dhtReadHumidity
  | _ => none

/-- The event itself when it is a frame capture or an HTTP POST. -/
def Event.captureOrPost? : Event → Option Event
  | Event.cameraFbGet => some Event.cameraFbGet
  | Event.httpPost body => some (Event.httpPost body)
  | _ => none

/-- The headers added by `http.addHeader`, in order. -/
def addedHeaders (events : List Event) : List Header := events.filterMap Event.header?

/-- The durations the wake-up timer is armed with, in order. -/
def armedTimers (events : List Event) : List Nat := events.filterMap Event.armed?

/-- The timer-arming and deep-sleep events, in order. -/
def suspendEvents (events : List Event) : List Event := events.filterMap Event.suspend?

/-- The sensor reads, in order. -/
def dhtReads (events : List Event) : List Event := events.filterMap Event.dhtRead?

/-- The frame captures and HTTP POSTs, in order. -/
def capturesAndPosts (events : List Event) : List Event :=
  events.filterMap Event.captureOrPost?

/-- Total milliseconds spent in `delay`. -/
def totalDelay (events : List Event) : Nat := (events.filterMap Event.delay?).sum

/-- The `WiFi.status()` result of line 386, after the wait loop. -/
def statusAfterWait (inp : WakeInput) : wl_status_t :=
  inp.wifiStatus (wifiConnectLoop inp.wifiStatus 0 0).calls

/-- The headers of the upload when `readDHT` is followed by
`sendImageToServer` on a frame, as in lines 165-170. -/
def headersOfReading (rawTemperature rawHumidity : F32) (frame : camera_fb_t)
    (wifiStatus : Nat → wl_status_t) (calls : Nat) (httpResponseCode : Int) : List Header :=
  addedHeaders (sendImageToServer (some frame)
    (readDHT rawTemperature rawHumidity).1.temperature
    (readDHT rawTemperature rawHumidity).1.humidity
    wifiStatus calls httpResponseCode).events

def contentTypeHeader : Header :=
  { name := "Content-Type", value := HeaderValue.text "image/jpeg" }

/-- An `X-Temperature` header carrying `t` with one decimal place. -/
def temperatureHeader (t : F32) : Header :=
  { name := "X-Temperature", value := HeaderValue.float { value := t, decimalPlaces := 1 } }

/-- An `X-Humidity` header carrying `h` with one decimal place. -/
def humidityHeader (h : F32) : Header :=
  { name := "X-Humidity", value := HeaderValue.float { value := h, decimalPlaces := 1 } }

/-! ## Arithmetic of the interval policy -/

theorem wrapInt32_of_range (x : Int) (h1 : -2147483648 ≤ x) (h2 : x ≤ 2147483647) :
    wrapInt32 x = x := by
  unfold wrapInt32; omega

theorem wakeupsNeededFor_eq_ediv (P K : Int) (hP : 0 < P) (hK : 0 < K)
    (hov : P + K ≤ 2147483647) : wakeupsNeededFor P K = (P + K - 1) / K := by
  unfold wakeupsNeededFor
  rw [wrapInt32_of_range (P + K) (by omega) (by omega),
      wrapInt32_of_range (P + K - 1) (by omega) (by omega)]
  have h0 : 0 ≤ P + K - 1 := by omega
  rw [Int.tdiv_eq_ediv h0 (by omega)]
  have : 0 ≤ (P + K - 1) / K := Int.ediv_nonneg h0 (by omega)
  have : (P + K - 1) / K ≤ P + K - 1 := Int.ediv_le_self _ h0
  exact wrapInt32_of_range _ (by omega) (by omega)

theorem wakeupsNeededForPhoto_eq : wakeupsNeededForPhoto = 40 := by decide

/-- C6: for positive intervals `P` and `K` whose sum fits an `int`, the value
`(P + K - 1) / K` is the ceiling of `P / K`: that many keep-alive sleeps cover
the photo interval, no smaller count does, and for 3600 and 90 it is 40. -/
theorem wakeupsNeededFor_is_ceiling (P K : Int) (hP : 0 < P) (hK : 0 < K)
    (hov : P + K ≤ 2147483647) :
    P ≤ wakeupsNeededFor P K * K
    ∧ (∀ n : Int, P ≤ n * K → wakeupsNeededFor P K ≤ n)
    ∧ wakeupsNeededFor P K = ⌈(P : ℚ) / (K : ℚ)⌉
    ∧ wakeupsNeededFor 3600 90 = 40 := by
  rw [wakeupsNeededFor_eq_ediv P K hP hK hov]
  have hlt : P + K - 1 < ((P + K - 1) / K + 1) * K := Int.lt_ediv_add_one_mul_self _ hK
  have hle : (P + K - 1) / K * K ≤ P + K - 1 := Int.ediv_mul_le _ (by omega)
  have hup : P ≤ (P + K - 1) / K * K := by
    have : ((P + K - 1) / K + 1) * K = (P + K - 1) / K * K + K := by ring
    omega
  refine ⟨hup, ?_, ?_, by decide⟩
  · intro n hn
    have h1 : (P + K - 1) / K < n + 1 := by
      rw [Int.ediv_lt_iff_lt_mul hK]
      have : (n + 1) * K = n * K + K := by ring
      omega
    omega
  · symm
    rw [Int.ceil_eq_iff]
    have hKq : (0 : ℚ) < (K : ℚ) := by exact_mod_cast hK
    constructor
    · rw [lt_div_iff₀ hKq]
      have : ((P + K - 1) / K - 1) * K < P := by
        have : ((P + K - 1) / K - 1) * K = (P + K - 1) / K * K - K := by ring
        omega
      exact_mod_cast this
    · rw [div_le_iff₀ hKq]
      exact_mod_cast hup

theorem wakeupsNeededFor_is_ceiling_witness :
    (3600 : Int) ≤ wakeupsNeededFor 3600 90 * 90
    ∧ (∀ n : Int, 3600 ≤ n * 90 → wakeupsNeededFor 3600 90 ≤ n)
    ∧ wakeupsNeededFor 3600 90 = ⌈((3600 : Int) : ℚ) / ((90 : Int) : ℚ)⌉
    ∧ wakeupsNeededFor 3600 90 = 40 :=
  wakeupsNeededFor_is_ceiling 3600 90 (by decide) (by decide) (by decide)

/-! ## Classification of a wake -/

theorem setup_timeForPhoto (inp : WakeInput) (rtc : RtcState) :
    (setup inp rtc).timeForPhoto
      = timeForPhoto (advanceCounter (printWakeupReason inp.wakeup_reason rtc)) := by
  unfold setup
  by_cases h : timeForPhoto (advanceCounter (printWakeupReason inp.wakeup_reason rtc)) = true
  · simp only [h, if_true]
    unfold photoRoutine
    by_cases hc : inp.cameraInitOk = true <;> simp [hc]
  · simp only [h]
    simp [keepAliveRoutine]

theorem timeForPhoto_iff (rtc : RtcState) :
    timeForPhoto rtc = true
      ↔ rtc.bootCount = 1 ∨ rtc.wakeupsSinceLastPhoto ≥ wakeupsNeededForPhoto := by
  unfold timeForPhoto
  by_cases hb : rtc.bootCount = 1 <;> simp [hb]

/-- C5: the classification computed by `setup()` is true exactly when the
boot count after the increment is 1 or the advanced counter has reached
`wakeupsNeededForPhoto` (= 40); off the first boot 39 gives false, 40 and 41
give true, and a larger counter never turns a photo wake into a keep-alive
wake. -/
theorem setup_classification (inp : WakeInput) (rtc : RtcState) (b w w' : Int)
    (hb : b ≠ 1) (hw : w ≤ w') :
    ((setup inp rtc).timeForPhoto = true
      ↔ (advanceCounter (printWakeupReason inp.wakeup_reason rtc)).bootCount = 1
        ∨ (advanceCounter (printWakeupReason inp.wakeup_reason rtc)).wakeupsSinceLastPhoto
            ≥ wakeupsNeededForPhoto)
    ∧ wakeupsNeededForPhoto = 40
    ∧ timeForPhoto { bootCount := b, wakeupsSinceLastPhoto := 39 } = false
    ∧ timeForPhoto { bootCount := b, wakeupsSinceLastPhoto := 40 } = true
    ∧ timeForPhoto { bootCount := b, wakeupsSinceLastPhoto := 41 } = true
    ∧ (∀ c : Int, timeForPhoto { bootCount := c, wakeupsSinceLastPhoto := w } = true
        → timeForPhoto { bootCount := c, wakeupsSinceLastPhoto := w' } = true) := by
  refine ⟨?_, wakeupsNeededForPhoto_eq, ?_, ?_, ?_, ?_⟩
  · rw [setup_timeForPhoto, timeForPhoto_iff]
  · simp [timeForPhoto, hb, wakeupsNeededForPhoto_eq]
  · simp [timeForPhoto, hb, wakeupsNeededForPhoto_eq]
  · simp [timeForPhoto, hb, wakeupsNeededForPhoto_eq]
  · intro c
    rw [timeForPhoto_iff, timeForPhoto_iff]
    rintro (h | h)
    · exact Or.inl h
    · exact Or.inr (le_trans h hw)

theorem setup_classification_witness :
    ((setup powerOnWake coldStart).timeForPhoto = true
      ↔ (advanceCounter (printWakeupReason powerOnWake.wakeup_reason coldStart)).bootCount = 1
        ∨ (advanceCounter (printWakeupReason powerOnWake.wakeup_reason
              coldStart)).wakeupsSinceLastPhoto ≥ wakeupsNeededForPhoto)
    ∧ wakeupsNeededForPhoto = 40
    ∧ timeForPhoto { bootCount := 2, wakeupsSinceLastPhoto := 39 } = false
    ∧ timeForPhoto { bootCount := 2, wakeupsSinceLastPhoto := 40 } = true
    ∧ timeForPhoto { bootCount := 2, wakeupsSinceLastPhoto := 41 } = true
    ∧ (∀ c : Int, timeForPhoto { bootCount := c, wakeupsSinceLastPhoto := 39 } = true
        → timeForPhoto { bootCount := c, wakeupsSinceLastPhoto := 40 } = true) :=
  setup_classification powerOnWake coldStart 2 39 40 (by decide) (by decide)

/-! ## The first boot -/

/-- C3, as stated, fails on a timer wake: with `bootCount` going from 0 to 1
and a prior counter of 7, the counter is still 7 after `printWakeupReason()`
and the advance step. -/
theorem first_boot_timer_keeps_counter :
    (advanceCounter (printWakeupReason esp_sleep_wakeup_cause_t.ESP_SLEEP_WAKEUP_TIMER
      { bootCount := 0, wakeupsSinceLastPhoto := 7 })).bootCount = 1
    ∧ (advanceCounter (printWakeupReason esp_sleep_wakeup_cause_t.ESP_SLEEP_WAKEUP_TIMER
      { bootCount := 0, wakeupsSinceLastPhoto := 7 })).wakeupsSinceLastPhoto = 7
    ∧ ¬ ∀ (reason : esp_sleep_wakeup_cause_t) (w : Int),
        (advanceCounter (printWakeupReason reason
          { bootCount := 0, wakeupsSinceLastPhoto := w })).wakeupsSinceLastPhoto = 0 := by
  refine ⟨by decide, by decide, ?_⟩
  intro h
  exact absurd (h esp_sleep_wakeup_cause_t.ESP_SLEEP_WAKEUP_TIMER 7) (by decide)

/-- C3, amended: when `bootCount` goes from 0 to 1 the wake counts as the first
boot (`bootCount == 1`, photo wake) for every wake-up reason and every prior
counter; the counter is forced to 0 for every reason other than
`ESP_SLEEP_WAKEUP_TIMER` and keeps its prior value on a timer wake. -/
theorem first_boot_counter (reason : esp_sleep_wakeup_cause_t) (w : Int) :
    (advanceCounter (printWakeupReason reason
      { bootCount := 0, wakeupsSinceLastPhoto := w })).bootCount = 1
    ∧ (advanceCounter (printWakeupReason reason
      { bootCount := 0, wakeupsSinceLastPhoto := w })).wakeupsSinceLastPhoto
        = (if reason = esp_sleep_wakeup_cause_t.ESP_SLEEP_WAKEUP_TIMER then w else 0)
    ∧ timeForPhoto (advanceCounter (printWakeupReason reason
      { bootCount := 0, wakeupsSinceLastPhoto := w })) = true := by
  cases reason <;> simp [printWakeupReason, advanceCounter, wrapInt32, timeForPhoto]

/-! ## The persisted counters after one wake -/

theorem photoRoutine_rtc (inp : WakeInput) (rtc : RtcState) (config : camera_config_t) :
    (photoRoutine inp rtc config).rtc
      = if inp.cameraInitOk then { rtc with wakeupsSinceLastPhoto := 0 } else rtc := by
  unfold photoRoutine
  by_cases hc : inp.cameraInitOk = true <;> simp [hc]

theorem setup_rtc (inp : WakeInput) (rtc : RtcState) :
    (setup inp rtc).rtc
      = if timeForPhoto (advanceCounter (printWakeupReason inp.wakeup_reason rtc)) then
          (if inp.cameraInitOk then
            { advanceCounter (printWakeupReason inp.wakeup_reason rtc) with
              wakeupsSinceLastPhoto := 0 }
           else advanceCounter (printWakeupReason inp.wakeup_reason rtc))
        else advanceCounter (printWakeupReason inp.wakeup_reason rtc) := by
  unfold setup
  by_cases h : timeForPhoto (advanceCounter (printWakeupReason inp.wakeup_reason rtc)) = true
  · simp only [h, if_true]
    exact photoRoutine_rtc _ _ _
  · simp only [h]
    simp [keepAliveRoutine]

/-- From `bootCount = b ≥ 1` a wake advances both counters by one, whatever the
wake-up reason (no overflow). -/
theorem advance_from (reason : esp_sleep_wakeup_cause_t) (b w : Int)
    (hb1 : 1 ≤ b) (hb2 : b < 2147483647) (hw1 : -2147483648 ≤ w) (hw2 : w < 2147483647) :
    advanceCounter (printWakeupReason reason { bootCount := b, wakeupsSinceLastPhoto := w })
      = { bootCount := b + 1, wakeupsSinceLastPhoto := w + 1 } := by
  have e1 : wrapInt32 (b + 1) = b + 1 := wrapInt32_of_range _ (by omega) (by omega)
  have e2 : wrapInt32 (w + 1) = w + 1 := wrapInt32_of_range _ (by omega) (by omega)
  have hne : ¬ (b + 1 = 1) := by omega
  have hgt : b + 1 > 1 := by omega
  cases reason <;> simp [printWakeupReason, advanceCounter, e1, e2, hne, hgt]

/-- From the cold-start counters the first wake leaves `bootCount = 1` and a
counter of 0 after the advance step, whatever the wake-up reason. -/
theorem first_boot_like (reason : esp_sleep_wakeup_cause_t) :
    advanceCounter (printWakeupReason reason coldStart)
      = { bootCount := 1, wakeupsSinceLastPhoto := 0 } := by
  cases reason <;> decide

/-! ## Forty-one wakes from a cold start -/

theorem rtcAfter_one (inputs : Nat → WakeInput) :
    rtcAfter inputs 1 = { bootCount := 1, wakeupsSinceLastPhoto := 0 } := by
  show (setup (inputs 0) coldStart).rtc = _
  rw [setup_rtc]
  have h := first_boot_like (inputs 0).wakeup_reason
  rw [h]
  by_cases hc : (inputs 0).cameraInitOk = true <;> simp [hc, timeForPhoto]

theorem rtcAfter_keepAlive (inputs : Nat → WakeInput) (n : Nat) (h : n < 40) :
    rtcAfter inputs (n + 1) = { bootCount := (n : Int) + 1, wakeupsSinceLastPhoto := (n : Int) } := by
  induction n with
  | zero => simpa using rtcAfter_one inputs
  | succ k ih =>
    show (setup (inputs (k + 1)) (rtcAfter inputs (k + 1))).rtc = _
    rw [ih (by omega), setup_rtc,
        advance_from _ _ _ (by omega) (by omega) (by omega) (by omega)]
    have hk : ¬ ((k : Int) + 1 + 1 = 1) := by omega
    have hlt : ¬ ((40 : Int) ≤ (k : Int) + 1) := by omega
    simp [timeForPhoto, wakeupsNeededForPhoto_eq, hk, hlt]

theorem wakeIsPhoto_eq (inputs : Nat → WakeInput) (k : Nat) (h : k < 41) :
    wakeIsPhoto inputs k = (k == 0 || k == 40) := by
  unfold wakeIsPhoto
  rw [setup_timeForPhoto]
  rcases Nat.eq_zero_or_pos k with h0 | hpos
  · subst h0
    show timeForPhoto (advanceCounter (printWakeupReason _ coldStart)) = _
    rw [first_boot_like]
    simp [timeForPhoto]
  · obtain ⟨m, rfl⟩ : ∃ m, k = m + 1 := ⟨k - 1, by omega⟩
    rw [rtcAfter_keepAlive inputs m (by omega),
        advance_from _ _ _ (by omega) (by omega) (by omega) (by omega)]
    have hk : ¬ ((m : Int) + 1 + 1 = 1) := by omega
    by_cases h40 : m + 1 = 40
    · have : (40 : Int) ≤ (m : Int) + 1 := by omega
      simp [timeForPhoto, wakeupsNeededForPhoto_eq, hk, this, h40]
    · have : ¬ ((40 : Int) ≤ (m : Int) + 1) := by omega
      have h39 : ¬ (m = 39) := by omega
      simp [timeForPhoto, wakeupsNeededForPhoto_eq, hk, this, h39]

/-- C1: from the cold-start counters, with 90 s and 3600 s intervals, for
every choice of wake-up reasons and peripheral outcomes in 41 consecutive runs
of `setup()`: wake 1 takes the photo branch, wakes 2 to 40 the keep-alive
branch, wake 41 the photo branch. -/
theorem forty_one_wakes (inputs : Nat → WakeInput) :
    (List.range 41).map (wakeIsPhoto inputs)
      = [true] ++ List.replicate 39 false ++ [true] := by
  have h : (List.range 41).map (wakeIsPhoto inputs)
      = (List.range 41).map (fun k => (k == 0 || k == 40)) := by
    apply List.map_congr_left
    intro k hk
    exact wakeIsPhoto_eq inputs k (List.mem_range.mp hk)
  rw [h]
  decide

/-! ## The photo counter after a photo wake -/

/-- C2, as stated, fails when `esp_camera_init` fails: from `bootCount = 5` and
a counter of 39 the timer wake is a photo wake, and the counter is 40, not 0,
when the device goes to sleep. -/
theorem camera_failure_keeps_counter :
    (setup timerWakeCameraFails { bootCount := 5, wakeupsSinceLastPhoto := 39 }).timeForPhoto
      = true
    ∧ (setup timerWakeCameraFails
        { bootCount := 5, wakeupsSinceLastPhoto := 39 }).rtc.wakeupsSinceLastPhoto = 40
    ∧ (setup timerWakeCameraFails
        { bootCount := 5, wakeupsSinceLastPhoto := 39 }).rtc.wakeupsSinceLastPhoto ≠ 0 := by
  rw [setup_timeForPhoto, setup_rtc]
  decide

/-- C2, amended: in every photo wake the counter at deep sleep is 0 when
`esp_camera_init` succeeds (whatever Wi-Fi, capture and upload do) and is the
advanced, un-reset value when it fails; after a photo wake whose camera init
succeeded, a second run of the photo routine leaves the counter at 0 again,
whatever its outcome. -/
theorem photo_wake_counter (inp inp2 : WakeInput) (rtc : RtcState) (config2 : camera_config_t)
    (hphoto : (setup inp rtc).timeForPhoto = true) :
    (setup inp rtc).rtc.wakeupsSinceLastPhoto
      = (if inp.cameraInitOk then 0
         else (advanceCounter (printWakeupReason inp.wakeup_reason rtc)).wakeupsSinceLastPhoto)
    ∧ (inp.cameraInitOk = true →
        (photoRoutine inp2 (setup inp rtc).rtc config2).rtc.wakeupsSinceLastPhoto = 0) := by
  rw [setup_timeForPhoto] at hphoto
  rw [setup_rtc]
  simp only [hphoto, if_true]
  by_cases hc : inp.cameraInitOk = true
  · simp only [hc, if_true, true_implies, photoRoutine_rtc]
    by_cases hc2 : inp2.cameraInitOk = true <;> simp [hc2]
  · simp [hc]

theorem photo_wake_counter_witness :
    (setup timerWake { bootCount := 5, wakeupsSinceLastPhoto := 39 }).timeForPhoto = true
    ∧ (advanceCounter (printWakeupReason timerWake.wakeup_reason
        { bootCount := 5, wakeupsSinceLastPhoto := 39 })).wakeupsSinceLastPhoto = 40
    ∧ timerWake.cameraInitOk = true
    ∧ (setup timerWake { bootCount := 5, wakeupsSinceLastPhoto := 39 }).rtc.wakeupsSinceLastPhoto
        = (if timerWake.cameraInitOk then 0
           else (advanceCounter (printWakeupReason timerWake.wakeup_reason
                  { bootCount := 5, wakeupsSinceLastPhoto := 39 })).wakeupsSinceLastPhoto)
    ∧ (setup timerWake { bootCount := 5, wakeupsSinceLastPhoto := 39 }).rtc.wakeupsSinceLastPhoto
        = 0
    ∧ (timerWake.cameraInitOk = true →
        (photoRoutine timerWakeNoWifi
          (setup timerWake { bootCount := 5, wakeupsSinceLastPhoto := 39 }).rtc
          (cameraConfig true)).rtc.wakeupsSinceLastPhoto = 0) :=
  have hphoto : (setup timerWake
      { bootCount := 5, wakeupsSinceLastPhoto := 39 }).timeForPhoto = true := by
    rw [setup_timeForPhoto]; decide
  have h := photo_wake_counter timerWake timerWakeNoWifi
    { bootCount := 5, wakeupsSinceLastPhoto := 39 } (cameraConfig true) hphoto
  ⟨hphoto, by decide, rfl, h.1, h.1.trans (if_pos rfl), h.2⟩

/-! ## Camera-init failure and the next wake -/

/-- Off the first boot, a photo wake whose camera init fails is followed by
another photo wake (no overflow of the counters). -/
theorem camera_failure_retried (inp inp2 : WakeInput) (b w : Int)
    (hb1 : 1 ≤ b) (hb2 : b < 2147483646) (hw1 : -2147483648 ≤ w) (hw2 : w < 2147483646)
    (hphoto : (setup inp { bootCount := b, wakeupsSinceLastPhoto := w }).timeForPhoto = true)
    (hfail : inp.cameraInitOk = false) :
    (setup inp2 (setup inp { bootCount := b, wakeupsSinceLastPhoto := w }).rtc).timeForPhoto
      = true := by
  have hadv := advance_from inp.wakeup_reason b w hb1 (by omega) hw1 (by omega)
  have hrtc : (setup inp { bootCount := b, wakeupsSinceLastPhoto := w }).rtc
      = { bootCount := b + 1, wakeupsSinceLastPhoto := w + 1 } := by
    rw [setup_rtc, hadv]
    simp [hfail]
  rw [setup_timeForPhoto, hadv, timeForPhoto_iff] at hphoto
  rw [hrtc, setup_timeForPhoto,
      advance_from _ _ _ (by omega) (by omega) (by omega) (by omega), timeForPhoto_iff]
  simp only at hphoto ⊢
  rcases hphoto with h | h
  · omega
  · right; omega

/-- C4 at the first boot: from the cold-start counters, a power-on wake whose
camera init fails is a photo wake that sleeps for 90 s with the counters at
`bootCount = 1`, counter 0, and the wake after it takes the keep-alive branch
whatever its inputs: the photo is not retried on the next wake. -/
theorem first_boot_camera_failure_not_retried (inp2 : WakeInput) :
    (setup powerOnWakeCameraFails coldStart).timeForPhoto = true
    ∧ (setup powerOnWakeCameraFails coldStart).rtc
        = { bootCount := 1, wakeupsSinceLastPhoto := 0 }
    ∧ armedTimers (setup powerOnWakeCameraFails coldStart).trace = [90 * 1000000]
    ∧ (setup inp2 (setup powerOnWakeCameraFails coldStart).rtc).timeForPhoto = false := by
  have hrtc : (setup powerOnWakeCameraFails coldStart).rtc
      = { bootCount := 1, wakeupsSinceLastPhoto := 0 } := by
    rw [setup_rtc]; decide
  refine ⟨by rw [setup_timeForPhoto]; decide, hrtc, by decide, ?_⟩
  rw [hrtc, setup_timeForPhoto,
      advance_from _ _ _ (by omega) (by omega) (by omega) (by omega)]
  decide

/-! ## The Wi-Fi wait loop -/

theorem wifiConnectLoop_unfold (wifiStatus : Nat → wl_status_t) (calls wifi_retries : Nat) :
    wifiConnectLoop wifiStatus calls wifi_retries
      = if wifiStatus calls ≠ wl_status_t.WL_CONNECTED ∧ wifi_retries < max_wifi_retries then
          { wifiConnectLoop wifiStatus (calls + 1) (wifi_retries + 1) with
            events := Event.wifiStatus (wifiStatus calls) :: Event.delay 500
              :: (wifiConnectLoop wifiStatus (calls + 1) (wifi_retries + 1)).events }
        else
          { calls := calls + 1, wifi_retries := wifi_retries,
            events := [Event.wifiStatus (wifiStatus calls)] } := by
  rw [wifiConnectLoop]

/-- What the wait loop guarantees when it is entered with `wifi_retries` not
above the maximum. -/
theorem wifiConnectLoop_spec (wifiStatus : Nat → wl_status_t) (n : Nat) :
    ∀ calls wifi_retries, max_wifi_retries - wifi_retries = n →
      wifi_retries ≤ max_wifi_retries →
      let r := wifiConnectLoop wifiStatus calls wifi_retries
      wifi_retries ≤ r.wifi_retries
      ∧ r.wifi_retries ≤ max_wifi_retries
      ∧ r.calls = calls + (r.wifi_retries - wifi_retries) + 1
      ∧ r.events.count (Event.delay 500) = r.wifi_retries - wifi_retries
      ∧ totalDelay r.events = 500 * (r.wifi_retries - wifi_retries)
      ∧ (∀ e ∈ r.events, (∃ st, e = Event.wifiStatus st) ∨ e = Event.delay 500)
      ∧ (wifiStatus (r.calls - 1) = wl_status_t.WL_CONNECTED
          ∨ r.wifi_retries = max_wifi_retries)
      ∧ ((∀ i, calls ≤ i → wifiStatus i ≠ wl_status_t.WL_CONNECTED) →
          r.wifi_retries = max_wifi_retries) := by
  induction n with
  | zero =>
    intro calls wifi_retries hn hle
    have hnot : ¬ (wifi_retries < max_wifi_retries) := by omega
    rw [wifiConnectLoop_unfold]
    simp [hnot, totalDelay, Event.delay?]
    omega
  | succ k ih =>
    intro calls wifi_retries hn hle
    rw [wifiConnectLoop_unfold]
    by_cases hc : wifiStatus calls = wl_status_t.WL_CONNECTED
    · simp [hc, totalDelay, Event.delay?]
      exact ⟨hle, fun hall => absurd hc (hall calls (le_refl _))⟩
    · have hlt : wifi_retries < max_wifi_retries := by omega
      obtain ⟨h1, h2, h3, h4, h5, h6, h7, h8⟩ :=
        ih (calls + 1) (wifi_retries + 1) (by omega) (by omega)
      simp only [ne_eq, hc, not_false_eq_true, hlt, and_self, if_true]
      refine ⟨by omega, h2, by omega, ?_, ?_, ?_, ?_, ?_⟩
      · simp [List.count_cons, h4]; omega
      · simp only [totalDelay] at h5 ⊢
        simp [List.filterMap_cons, Event.delay?, h5]
        omega
      · intro e he
        simp only [List.mem_cons] at he
        rcases he with rfl | rfl | he
        · exact Or.inl ⟨_, rfl⟩
        · exact Or.inr rfl
        · exact h6 e he
      · exact h7
      · intro hall
        exact h8 (fun i hi => hall i (by omega))


/-- Only `WiFi.status()` calls and 500 ms delays happen in the wait loop. -/
theorem wifiConnectLoop_events (wifiStatus : Nat → wl_status_t) (e : Event)
    (he : e ∈ (wifiConnectLoop wifiStatus 0 0).events) :
    (∃ st, e = Event.wifiStatus st) ∨ e = Event.delay 500 :=
  (wifiConnectLoop_spec wifiStatus _ 0 0 rfl (by decide)).2.2.2.2.2.1 e he

theorem wifiConnectLoop_suspend (wifiStatus : Nat → wl_status_t) :
    suspendEvents (wifiConnectLoop wifiStatus 0 0).events = [] := by
  unfold suspendEvents
  rw [List.filterMap_eq_nil_iff]
  intro e he
  rcases wifiConnectLoop_events wifiStatus e he with ⟨st, rfl⟩ | rfl <;> rfl

theorem wifiConnectLoop_dhtReads (wifiStatus : Nat → wl_status_t) :
    dhtReads (wifiConnectLoop wifiStatus 0 0).events = [] := by
  unfold dhtReads
  rw [List.filterMap_eq_nil_iff]
  intro e he
  rcases wifiConnectLoop_events wifiStatus e he with ⟨st, rfl⟩ | rfl <;> rfl

theorem wifiConnectLoop_capturesAndPosts (wifiStatus : Nat → wl_status_t) :
    capturesAndPosts (wifiConnectLoop wifiStatus 0 0).events = [] := by
  unfold capturesAndPosts
  rw [List.filterMap_eq_nil_iff]
  intro e he
  rcases wifiConnectLoop_events wifiStatus e he with ⟨st, rfl⟩ | rfl <;> rfl

/-! ## Events of the upload and capture routines -/

theorem sendImageToServer_suspend (fb : Option camera_fb_t) (t h : F32)
    (wifiStatus : Nat → wl_status_t) (calls : Nat) (code : Int) :
    suspendEvents (sendImageToServer fb t h wifiStatus calls code).events = [] := by
  unfold sendImageToServer uploadHeaders suspendEvents
  cases fb with
  | none => rfl
  | some frame =>
    simp only []
    split_ifs <;> rfl

theorem sendImageToServer_dhtReads (fb : Option camera_fb_t) (t h : F32)
    (wifiStatus : Nat → wl_status_t) (calls : Nat) (code : Int) :
    dhtReads (sendImageToServer fb t h wifiStatus calls code).events = [] := by
  unfold sendImageToServer uploadHeaders dhtReads
  cases fb with
  | none => rfl
  | some frame =>
    simp only []
    split_ifs <;> rfl

theorem readDHT_events (rawTemperature rawHumidity : F32) :
    (readDHT rawTemperature rawHumidity).2
      = [Event.dhtReadTemperature, Event.dhtReadHumidity] := by
  unfold readDHT
  simp only []
  split_ifs <;> rfl

theorem captureAndSendImage_suspend (inp : WakeInput) (calls : Nat) :
    suspendEvents (captureAndSendImage inp calls).events = [] := by
  unfold captureAndSendImage
  cases hfb : inp.fb with
  | none => rfl
  | some frame =>
    have h := sendImageToServer_suspend (some frame)
      (readDHT inp.rawTemperature inp.rawHumidity).1.temperature
      (readDHT inp.rawTemperature inp.rawHumidity).1.humidity
      inp.wifiStatus calls inp.httpResponseCode
    have hd : suspendEvents (readDHT inp.rawTemperature inp.rawHumidity).2 = [] := by
      rw [readDHT_events]; rfl
    unfold suspendEvents at h hd ⊢
    simp only [List.filterMap_append, h, hd]
    rfl

/-- The sensor is read in `captureAndSendImage` exactly when a frame came
back. -/
theorem captureAndSendImage_dhtReads (inp : WakeInput) (calls : Nat) :
    dhtReads (captureAndSendImage inp calls).events
      = if inp.fb.isSome then [Event.dhtReadTemperature, Event.dhtReadHumidity] else [] := by
  unfold captureAndSendImage
  cases hfb : inp.fb with
  | none => rfl
  | some frame =>
    have h := sendImageToServer_dhtReads (some frame)
      (readDHT inp.rawTemperature inp.rawHumidity).1.temperature
      (readDHT inp.rawTemperature inp.rawHumidity).1.humidity
      inp.wifiStatus calls inp.httpResponseCode
    have hd : dhtReads (readDHT inp.rawTemperature inp.rawHumidity).2
        = [Event.dhtReadTemperature, Event.dhtReadHumidity] := by
      rw [readDHT_events]; rfl
    unfold dhtReads at h hd ⊢
    simp only [List.filterMap_append, h, hd]
    rfl

/-! ## The trace of one wake -/

theorem setup_trace_keepAlive (inp : WakeInput) (rtc : RtcState)
    (hka : (setup inp rtc).timeForPhoto = false) :
    (setup inp rtc).trace
      = (Event.delay 500 :: setupLedFlash LED_GPIO_NUM ++ performKeepAliveAction)
        ++ goToDeepSleep (toUInt64 KEEP_ALIVE_INTERVAL_S) := by
  rw [setup_timeForPhoto] at hka
  unfold setup
  simp [hka, keepAliveRoutine]

theorem setup_trace_cameraFails (inp : WakeInput) (rtc : RtcState)
    (hphoto : (setup inp rtc).timeForPhoto = true) (hcam : inp.cameraInitOk = false) :
    (setup inp rtc).trace
      = (Event.delay 500 :: setupLedFlash LED_GPIO_NUM
          ++ [Event.dhtBegin, Event.delay 100, Event.cameraInit (cameraConfig inp.psram)])
        ++ goToDeepSleep (toUInt64 KEEP_ALIVE_INTERVAL_S) := by
  rw [setup_timeForPhoto] at hphoto
  unfold setup
  simp [hphoto, photoRoutine, hcam]

theorem setup_trace_photo (inp : WakeInput) (rtc : RtcState)
    (hphoto : (setup inp rtc).timeForPhoto = true) (hcam : inp.cameraInitOk = true) :
    (setup inp rtc).trace
      = (Event.delay 500 :: setupLedFlash LED_GPIO_NUM
          ++ [Event.dhtBegin, Event.delay 100, Event.cameraInit (cameraConfig inp.psram)]
          ++ (if inp.sensorHandle then [Event.sensorSetVflip, Event.sensorSetHmirror] else [])
          ++ [Event.wifiModeSta, Event.wifiBegin]
          ++ (wifiConnectLoop inp.wifiStatus 0 0).events
          ++ [Event.wifiStatus (statusAfterWait inp)]
          ++ (if statusAfterWait inp = wl_status_t.WL_CONNECTED then
                (captureAndSendImage inp ((wifiConnectLoop inp.wifiStatus 0 0).calls + 1)).events
              else [])
          ++ [Event.cameraDeinit])
        ++ goToDeepSleep (toUInt64 KEEP_ALIVE_INTERVAL_S) := by
  rw [setup_timeForPhoto] at hphoto
  unfold setup
  simp only [hphoto, if_true]
  unfold photoRoutine statusAfterWait
  simp only [hcam, Bool.not_true, Bool.false_eq_true, if_false]
  split_ifs <;> simp

theorem setup_photoSent (inp : WakeInput) (rtc : RtcState)
    (hphoto : (setup inp rtc).timeForPhoto = true) (hcam : inp.cameraInitOk = true) :
    (setup inp rtc).photoSent
      = if statusAfterWait inp = wl_status_t.WL_CONNECTED then
          (captureAndSendImage inp ((wifiConnectLoop inp.wifiStatus 0 0).calls + 1)).success
        else false := by
  rw [setup_timeForPhoto] at hphoto
  unfold setup
  simp only [hphoto, if_true]
  unfold photoRoutine statusAfterWait
  simp only [hcam, Bool.not_true, Bool.false_eq_true, if_false]
  split_ifs <;> simp


/-! ## Every wake ends in one deep sleep of 90 s -/

theorem goToDeepSleep_keepAlive :
    goToDeepSleep (toUInt64 KEEP_ALIVE_INTERVAL_S)
      = [Event.wifiDisconnect, Event.wifiModeOff, Event.btStop,
         Event.timerWakeup (90 * 1000000),
         Event.serialFlush, Event.delay 100, Event.deepSleepStart] := by
  decide

/-- Every run of `setup()` is some events without timer arming or deep sleep,
followed by the events of `goToDeepSleep(KEEP_ALIVE_INTERVAL_S)`. -/
theorem setup_trace_split (inp : WakeInput) (rtc : RtcState) :
    ∃ pre, (setup inp rtc).trace = pre ++ goToDeepSleep (toUInt64 KEEP_ALIVE_INTERVAL_S)
      ∧ suspendEvents pre = [] := by
  by_cases hphoto : (setup inp rtc).timeForPhoto = true
  · by_cases hcam : inp.cameraInitOk = true
    · refine ⟨_, setup_trace_photo inp rtc hphoto hcam, ?_⟩
      have hl := wifiConnectLoop_suspend inp.wifiStatus
      have hc := captureAndSendImage_suspend inp ((wifiConnectLoop inp.wifiStatus 0 0).calls + 1)
      unfold suspendEvents at hl hc ⊢
      simp only [List.cons_append, List.filterMap_cons, List.filterMap_append, hl]
      split_ifs <;> simp [hc, Event.suspend?, setupLedFlash, LED_GPIO_NUM]
    · refine ⟨_, setup_trace_cameraFails inp rtc hphoto (by simpa using hcam), ?_⟩
      rfl
  · refine ⟨_, setup_trace_keepAlive inp rtc (by simpa using hphoto), ?_⟩
    rfl

/-- C7: for every persisted state and every outcome of the peripherals, one
run of `setup()` ends with the events of `goToDeepSleep(KEEP_ALIVE_INTERVAL_S)`
and arms the timer and starts deep sleep nowhere else: the timer is armed once,
with 90 * 1000000 microseconds (no reduction modulo 2^64), and deep sleep is
started once, as the last event. -/
theorem setup_sleeps_once (inp : WakeInput) (rtc : RtcState) :
    (∃ pre, (setup inp rtc).trace = pre ++ goToDeepSleep (toUInt64 KEEP_ALIVE_INTERVAL_S)
      ∧ suspendEvents pre = [])
    ∧ suspendEvents (setup inp rtc).trace
        = [Event.timerWakeup (90 * 1000000), Event.deepSleepStart]
    ∧ armedTimers (setup inp rtc).trace = [90 * 1000000]
    ∧ (setup inp rtc).trace.getLast? = some Event.deepSleepStart
    ∧ toUInt64 KEEP_ALIVE_INTERVAL_S = 90
    ∧ 90 * uS_TO_S_FACTOR < 18446744073709551616
    ∧ wrapUInt64 (90 * uS_TO_S_FACTOR) = 90 * 1000000 := by
  obtain ⟨pre, htrace, hpre⟩ := setup_trace_split inp rtc
  have harmed : armedTimers pre = [] := by
    unfold suspendEvents at hpre
    unfold armedTimers
    rw [List.filterMap_eq_nil_iff] at hpre ⊢
    intro e he
    have := hpre e he
    cases e <;> first | rfl | exact absurd this (by simp [Event.suspend?])
  refine ⟨⟨pre, htrace, hpre⟩, ?_, ?_, ?_, by decide, by decide, by decide⟩
  · rw [htrace, goToDeepSleep_keepAlive]
    unfold suspendEvents at hpre ⊢
    rw [List.filterMap_append, hpre]
    rfl
  · rw [htrace, goToDeepSleep_keepAlive]
    unfold armedTimers at harmed ⊢
    rw [List.filterMap_append, harmed]
    rfl
  · rw [htrace, goToDeepSleep_keepAlive]
    simp [List.getLast?_append]

/-! ## The Wi-Fi wait -/

/-- C9: the wait loop of `setup()` returns for every sequence of
`WiFi.status()` results, after at most 20 polls of 500 ms; when the radio never
reports `WL_CONNECTED` it leaves with `wifi_retries == 20` after 20 polls
(10000 ms of delay), and a photo wake whose camera init succeeded then takes the
failure branch: nothing is sent, no frame is captured, no POST is issued. -/
theorem wifi_wait_bounded (inp : WakeInput) (rtc : RtcState) :
    (wifiConnectLoop inp.wifiStatus 0 0).wifi_retries ≤ 20
    ∧ (wifiConnectLoop inp.wifiStatus 0 0).events.count (Event.delay 500)
        = (wifiConnectLoop inp.wifiStatus 0 0).wifi_retries
    ∧ totalDelay (wifiConnectLoop inp.wifiStatus 0 0).events
        = 500 * (wifiConnectLoop inp.wifiStatus 0 0).wifi_retries
    ∧ ((∀ i, inp.wifiStatus i ≠ wl_status_t.WL_CONNECTED) →
        (wifiConnectLoop inp.wifiStatus 0 0).wifi_retries = 20
        ∧ (wifiConnectLoop inp.wifiStatus 0 0).events.count (Event.delay 500) = 20
        ∧ totalDelay (wifiConnectLoop inp.wifiStatus 0 0).events = 10000
        ∧ ((setup inp rtc).timeForPhoto = true → inp.cameraInitOk = true →
            (setup inp rtc).photoSent = false
            ∧ capturesAndPosts (setup inp rtc).trace = [])) := by
  obtain ⟨-, h2, -, h4, h5, -, -, h8⟩ :=
    wifiConnectLoop_spec inp.wifiStatus _ 0 0 rfl (by decide)
  simp only [Nat.sub_zero] at h4 h5
  refine ⟨h2, h4, h5, ?_⟩
  intro hnever
  have h20 : (wifiConnectLoop inp.wifiStatus 0 0).wifi_retries = 20 := h8 (fun i _ => hnever i)
  refine ⟨h20, by rw [h4, h20], by rw [h5, h20], ?_⟩
  intro hphoto hcam
  have hst : ¬ (statusAfterWait inp = wl_status_t.WL_CONNECTED) := hnever _
  constructor
  · rw [setup_photoSent inp rtc hphoto hcam]
    simp [hst]
  · rw [setup_trace_photo inp rtc hphoto hcam]
    have hl := wifiConnectLoop_capturesAndPosts inp.wifiStatus
    unfold capturesAndPosts at hl ⊢
    simp only [List.cons_append, List.filterMap_cons, List.filterMap_append, hl, hst, if_false]
    split_ifs <;> simp [Event.captureOrPost?, setupLedFlash, LED_GPIO_NUM, goToDeepSleep]


theorem wifi_wait_bounded_witness :
    (wifiConnectLoop timerWakeNoWifi.wifiStatus 0 0).wifi_retries = 20
    ∧ totalDelay (wifiConnectLoop timerWakeNoWifi.wifiStatus 0 0).events = 10000
    ∧ (setup timerWakeNoWifi { bootCount := 5, wakeupsSinceLastPhoto := 39 }).photoSent = false
    ∧ capturesAndPosts
        (setup timerWakeNoWifi { bootCount := 5, wakeupsSinceLastPhoto := 39 }).trace = [] :=
  have h := (wifi_wait_bounded timerWakeNoWifi
    { bootCount := 5, wakeupsSinceLastPhoto := 39 }).2.2.2 (fun _ => wl_status_t.noConfusion)
  have h' := h.2.2.2 (by rw [setup_timeForPhoto]; decide) rfl
  ⟨h.1, h.2.2.1, h'.1, h'.2⟩

/-! ## The sensor read -/

theorem mem_dhtReads (l : List Event) :
    Event.dhtReadTemperature ∈ dhtReads l ↔ Event.dhtReadTemperature ∈ l := by
  unfold dhtReads
  rw [List.mem_filterMap]
  constructor
  · rintro ⟨a, ha, hf⟩
    cases a <;> simp [Event.dhtRead?] at hf
    exact ha
  · intro h
    exact ⟨_, h, rfl⟩

/-- The sensor reads of a photo wake whose camera init succeeded. -/
theorem setup_dhtReads (inp : WakeInput) (rtc : RtcState)
    (hphoto : (setup inp rtc).timeForPhoto = true) (hcam : inp.cameraInitOk = true) :
    dhtReads (setup inp rtc).trace
      = if statusAfterWait inp = wl_status_t.WL_CONNECTED ∧ inp.fb.isSome = true then
          [Event.dhtReadTemperature, Event.dhtReadHumidity]
        else [] := by
  rw [setup_trace_photo inp rtc hphoto hcam]
  have hl := wifiConnectLoop_dhtReads inp.wifiStatus
  have hc := captureAndSendImage_dhtReads inp ((wifiConnectLoop inp.wifiStatus 0 0).calls + 1)
  unfold dhtReads at hl hc ⊢
  simp only [List.cons_append, List.filterMap_cons, List.filterMap_append, hl]
  by_cases hst : statusAfterWait inp = wl_status_t.WL_CONNECTED
  · simp only [hst, if_true, hc, true_and]
    split_ifs <;> simp [Event.dhtRead?, setupLedFlash, LED_GPIO_NUM, goToDeepSleep]
  · simp only [hst, if_false, false_and]
    split_ifs <;> simp [Event.dhtRead?, setupLedFlash, LED_GPIO_NUM, goToDeepSleep]

/-- C10, as stated, fails when the capture fails: in a photo wake with camera
init and Wi-Fi working and `esp_camera_fb_get` returning the null pointer, the
trace has no sensor read. -/
theorem capture_failure_skips_sensor :
    (setup timerWakeCaptureFails
      { bootCount := 5, wakeupsSinceLastPhoto := 39 }).timeForPhoto = true
    ∧ timerWakeCaptureFails.cameraInitOk = true
    ∧ timerWakeCaptureFails.fb = none
    ∧ dhtReads (setup timerWakeCaptureFails
        { bootCount := 5, wakeupsSinceLastPhoto := 39 }).trace = []
    ∧ Event.dhtReadTemperature ∉ (setup timerWakeCaptureFails
        { bootCount := 5, wakeupsSinceLastPhoto := 39 }).trace := by
  have hphoto : (setup timerWakeCaptureFails
      { bootCount := 5, wakeupsSinceLastPhoto := 39 }).timeForPhoto = true := by
    rw [setup_timeForPhoto]; decide
  have hreads := setup_dhtReads timerWakeCaptureFails _ hphoto rfl
  have hfb : timerWakeCaptureFails.fb.isSome = false := rfl
  simp only [hfb, Bool.false_eq_true, and_false, if_false] at hreads
  refine ⟨hphoto, rfl, rfl, hreads, ?_⟩
  rw [← mem_dhtReads, hreads]
  exact List.not_mem_nil _

/-- C10, amended: in a photo wake whose camera init succeeded, `readDHT` is
called exactly when the radio is connected after the wait loop and
`esp_camera_fb_get` returns a frame; it is not called when the capture fails or
the radio is not connected. -/
theorem sensor_read_iff_frame (inp : WakeInput) (rtc : RtcState)
    (hphoto : (setup inp rtc).timeForPhoto = true) (hcam : inp.cameraInitOk = true) :
    dhtReads (setup inp rtc).trace
      = (if statusAfterWait inp = wl_status_t.WL_CONNECTED ∧ inp.fb.isSome = true then
          [Event.dhtReadTemperature, Event.dhtReadHumidity]
         else [])
    ∧ (Event.dhtReadTemperature ∈ (setup inp rtc).trace
        ↔ statusAfterWait inp = wl_status_t.WL_CONNECTED ∧ inp.fb.isSome = true) := by
  have h := setup_dhtReads inp rtc hphoto hcam
  refine ⟨h, ?_⟩
  rw [← mem_dhtReads, h]
  by_cases hc : statusAfterWait inp = wl_status_t.WL_CONNECTED ∧ inp.fb.isSome = true
  · simp [hc]
  · simp only [hc, if_false, iff_false]
    exact List.not_mem_nil _

theorem sensor_read_iff_frame_witness :
    dhtReads (setup powerOnWake coldStart).trace
      = (if statusAfterWait powerOnWake = wl_status_t.WL_CONNECTED
            ∧ powerOnWake.fb.isSome = true then
          [Event.dhtReadTemperature, Event.dhtReadHumidity]
         else [])
    ∧ (Event.dhtReadTemperature ∈ (setup powerOnWake coldStart).trace
        ↔ statusAfterWait powerOnWake = wl_status_t.WL_CONNECTED
          ∧ powerOnWake.fb.isSome = true) :=
  sensor_read_iff_frame powerOnWake coldStart (by rw [setup_timeForPhoto]; decide) rfl

/-! ## Sensor headers of the upload -/

theorem sendImageToServer_headers (frame : camera_fb_t) (t h : F32)
    (wifiStatus : Nat → wl_status_t) (calls : Nat) (code : Int)
    (hconn : wifiStatus calls = wl_status_t.WL_CONNECTED) :
    addedHeaders (sendImageToServer (some frame) t h wifiStatus calls code).events
      = uploadHeaders t h := by
  unfold sendImageToServer uploadHeaders addedHeaders
  simp only [hconn, ne_eq, not_true_eq_false, if_false]
  split_ifs <;> rfl

theorem dhtErrorValue_not_sent : dhtErrorValue.gtConst (-99) = false := by
  unfold dhtErrorValue F32.gtConst
  norm_num


theorem headersOfReading_eq (rawT rawH : F32) (frame : camera_fb_t)
    (wifiStatus : Nat → wl_status_t) (calls : Nat) (code : Int)
    (hconn : wifiStatus calls = wl_status_t.WL_CONNECTED) :
    headersOfReading rawT rawH frame wifiStatus calls code
      = uploadHeaders (readDHT rawT rawH).1.temperature (readDHT rawT rawH).1.humidity := by
  unfold headersOfReading
  exact sendImageToServer_headers _ _ _ _ _ _ hconn

theorem readDHT_failed (rawT rawH : F32) (h : (rawT.isnan || rawH.isnan) = true) :
    (readDHT rawT rawH).1 = { temperature := dhtErrorValue, humidity := dhtErrorValue } := by
  unfold readDHT
  simp only [h, if_true]

theorem readDHT_ok (rawT rawH : F32) (h : (rawT.isnan || rawH.isnan) = false) :
    (readDHT rawT rawH).1 = { temperature := rawT, humidity := rawH } := by
  unfold readDHT
  simp [h]

/-- A float header that is sent carries a value above -99.0. -/
theorem uploadHeaders_float_gt (t h : F32) (name : String) (f : FloatString)
    (hm : ({ name := name, value := HeaderValue.float f } : Header) ∈ uploadHeaders t h) :
    f.value.gtConst (-99) = true := by
  unfold uploadHeaders at hm
  simp only [List.mem_append, List.mem_singleton, Header.mk.injEq] at hm
  rcases hm with (⟨-, hv⟩ | hm) | hm
  · exact absurd hv (by simp)
  · by_cases ht : t.gtConst (-99) = true
    · simp only [ht, if_true, List.mem_singleton, Header.mk.injEq, HeaderValue.float.injEq] at hm
      rw [hm.2]; exact ht
    · simp [ht] at hm
  · by_cases hh : h.gtConst (-99) = true
    · simp only [hh, if_true, List.mem_singleton, Header.mk.injEq, HeaderValue.float.injEq] at hm
      rw [hm.2]; exact hh
    · simp [hh] at hm

/-- C8, as stated, fails for a reading at or below -99.0: with raw readings
-100.0 and 50.0 the read does not fail, yet only `X-Humidity` is added. -/
theorem cold_reading_header_omitted :
    ((F32.fin (-100)).isnan || (F32.fin 50).isnan) = false
    ∧ headersOfReading (F32.fin (-100)) (F32.fin 50) sampleFrame
        (fun _ => wl_status_t.WL_CONNECTED) 0 200
        = [contentTypeHeader, humidityHeader (F32.fin 50)]
    ∧ temperatureHeader (F32.fin (-100)) ∉ headersOfReading (F32.fin (-100)) (F32.fin 50)
        sampleFrame (fun _ => wl_status_t.WL_CONNECTED) 0 200 := by
  have h : headersOfReading (F32.fin (-100)) (F32.fin 50) sampleFrame
        (fun _ => wl_status_t.WL_CONNECTED) 0 200
        = [contentTypeHeader, humidityHeader (F32.fin 50)] := by
    rw [headersOfReading_eq _ _ _ _ _ _ rfl, readDHT_ok (F32.fin (-100)) (F32.fin 50) rfl]
    unfold uploadHeaders F32.gtConst contentTypeHeader humidityHeader
    norm_num
  refine ⟨rfl, h, ?_⟩
  rw [h]
  simp [contentTypeHeader, humidityHeader, temperatureHeader]

/-- C8, amended: with a frame and Wi-Fi connected, a failed sensor read (either
raw value NaN) adds neither sensor header; otherwise `X-Temperature` is added
exactly when the temperature is above -99.0 and `X-Humidity` exactly when the
humidity is above -99.0 (both when both are), each carrying the reading with
one decimal place; the sentinel is never sent. -/
theorem sensor_headers (rawT rawH : F32) (frame : camera_fb_t)
    (wifiStatus : Nat → wl_status_t) (calls : Nat) (code : Int)
    (hconn : wifiStatus calls = wl_status_t.WL_CONNECTED) :
    ((rawT.isnan || rawH.isnan) = true →
      headersOfReading rawT rawH frame wifiStatus calls code = [contentTypeHeader])
    ∧ ((rawT.isnan || rawH.isnan) = false →
      headersOfReading rawT rawH frame wifiStatus calls code
        = [contentTypeHeader]
          ++ (if rawT.gtConst (-99) then [temperatureHeader rawT] else [])
          ++ (if rawH.gtConst (-99) then [humidityHeader rawH] else []))
    ∧ ((rawT.isnan || rawH.isnan) = false → rawT.gtConst (-99) = true →
        rawH.gtConst (-99) = true →
      headersOfReading rawT rawH frame wifiStatus calls code
        = [contentTypeHeader, temperatureHeader rawT, humidityHeader rawH])
    ∧ (∀ (name : String) (places : Nat),
        ({ name := name,
           value := HeaderValue.float { value := dhtErrorValue, decimalPlaces := places } }
          : Header) ∉ headersOfReading rawT rawH frame wifiStatus calls code) := by
  rw [headersOfReading_eq _ _ _ _ _ _ hconn]
  refine ⟨?_, ?_, ?_, ?_⟩
  · intro hfail
    rw [readDHT_failed _ _ hfail]
    simp [uploadHeaders, dhtErrorValue_not_sent, contentTypeHeader]
  · intro hok
    rw [readDHT_ok _ _ hok]
    rfl
  · intro hok ht hh
    rw [readDHT_ok _ _ hok]
    simp [uploadHeaders, ht, hh, contentTypeHeader, temperatureHeader, humidityHeader]
  · intro name places hm
    have := uploadHeaders_float_gt _ _ _ _ hm
    rw [dhtErrorValue_not_sent] at this
    exact Bool.noConfusion this

theorem sensor_headers_witness :
    (((F32.fin 23.5).isnan || (F32.fin 50).isnan) = true →
      headersOfReading (F32.fin 23.5) (F32.fin 50) sampleFrame
        (fun _ => wl_status_t.WL_CONNECTED) 0 200 = [contentTypeHeader])
    ∧ (((F32.fin 23.5).isnan || (F32.fin 50).isnan) = false →
      headersOfReading (F32.fin 23.5) (F32.fin 50) sampleFrame
        (fun _ => wl_status_t.WL_CONNECTED) 0 200
        = [contentTypeHeader]
          ++ (if (F32.fin 23.5).gtConst (-99) then [temperatureHeader (F32.fin 23.5)] else [])
          ++ (if (F32.fin 50).gtConst (-99) then [humidityHeader (F32.fin 50)] else []))
    ∧ (((F32.fin 23.5).isnan || (F32.fin 50).isnan) = false →
        (F32.fin 23.5).gtConst (-99) = true → (F32.fin 50).gtConst (-99) = true →
      headersOfReading (F32.fin 23.5) (F32.fin 50) sampleFrame
        (fun _ => wl_status_t.WL_CONNECTED) 0 200
        = [contentTypeHeader, temperatureHeader (F32.fin 23.5), humidityHeader (F32.fin 50)])
    ∧ (∀ (name : String) (places : Nat),
        ({ name := name,
           value := HeaderValue.float { value := dhtErrorValue, decimalPlaces := places } }
          : Header) ∉ headersOfReading (F32.fin 23.5) (F32.fin 50) sampleFrame
            (fun _ => wl_status_t.WL_CONNECTED) 0 200) :=
  sensor_headers (F32.fin 23.5) (F32.fin 50) sampleFrame
    (fun _ => wl_status_t.WL_CONNECTED) 0 200 rfl


end GasEsp
